import Mathlib

/-!
Shallow embedding of the nut.js adapter layer.

Sources under src/ are the authority for the two adapters:
  src/lib/adapter/vision.adapter.class.ts  (VisionAdapter)
  src/lib/adapter/native.adapter.class.ts  (NativeAdapter)
  src/types/tesseract.js/index.d.ts        (OCR job/page shapes)
The collaborator classes they import (TemplateMatchingFinder, TesseractReader,
ImageWriter, ScreenAction, ClipboardAction, KeyboardAction, MouseAction) and
the value classes (Image, Region, ImageMatchRequest, MatchResult, Language)
are not under src/; where a claim depends on them they are modelled from the
spec, with a doc comment saying so.

Promises are modelled by Except (settled outcome); a call into a collaborator
that can either throw synchronously or return a promise is modelled by
AsyncOutcome, distinguishing a synchronous throw from an asynchronous
rejection. Confidences (TS floats in [0,1]) are modelled as Rat.
-/

/-- Image value: raw pixel buffer plus dimensions and channel count.
Modelled from the spec: the Image class is not under src/; the spec's data
model gives `raw pixel buffer + width + height + (optional) pixel format`. -/
structure Image where
  width : Nat
  height : Nat
  channels : Nat
  data : List Nat
deriving Repr, DecidableEq

/-- Region value: axis-aligned rectangle.
Modelled from the spec: the Region class is not under src/; the spec gives
`rectangle (x, y, width, height) in screen coordinates`. -/
structure Region where
  left : Int
  top : Int
  width : Int
  height : Int
deriving Repr, DecidableEq

/-- Match request: needle, haystack, search scope and minimum confidence.
Modelled from the spec: the ImageMatchRequest class is not under src/; the
spec gives `{ needle: Image, haystack-source: Region, minimum confidence }`
and the Matching Engine contract takes a haystack image and a needle image. -/
structure ImageMatchRequest where
  haystack : Image
  needle : Image
  searchRegion : Region
  confidence : Rat
deriving Repr, DecidableEq

/-- Match result: location and confidence of one candidate.
Modelled from the spec: the MatchResult class is not under src/; the spec
gives `{ location: Region, confidence: float }`. -/
structure MatchResult where
  confidence : Rat
  location : Region
deriving Repr, DecidableEq

/-- Failure kinds on the find channel, from the spec's error taxonomy:
NoMatchFound is distinct from an engine-level fault. -/
inductive FindError where
  | noMatchFound
  | engineFailure (message : String)
deriving Repr, DecidableEq

/-- Outcome of calling a collaborator that returns a deferred result: the call
can throw synchronously before producing a promise, or produce a promise that
fulfills or rejects. -/
inductive AsyncOutcome (ε α : Type) where
  | thrown (error : ε)
  | fulfilled (value : α)
  | rejected (error : ε)

/-- Grayscale conversion marker. Modelled from the spec: the conversion is
performed by the external OpenCV engine (cvtColor); the spec fixes no pixel
formula, so the model records the colour-space change by dropping to one
channel and keeping the buffer. -/
def Image.toGrayScale (img : Image) : Image :=
  ⟨img.width, img.height, 1, img.data⟩

/-- Colour mode chosen by the Finder for a given minimum confidence. -/
inductive ColourMode where
  | colour
  | grayscale
deriving Repr, DecidableEq

/-- Modelled from the spec (TemplateMatchingFinder is not under src/): if
minimum confidence is at least 0.99 the search runs in full colour, otherwise
in grayscale. The VisionAdapter doc comment in src/ states the same boundary:
for matchProbability below 0.99 the search is performed on grayscale images. -/
def colourMode (minConfidence : Rat) : ColourMode :=
  if minConfidence < 99 / 100 then ColourMode.grayscale else ColourMode.colour

/-- Apply the chosen colour mode to one image. -/
def applyMode : ColourMode → Image → Image
  | ColourMode.colour, img => img
  | ColourMode.grayscale, img => img.toGrayScale

/-- One fold step of best-candidate selection: replace the current best only
on strictly higher confidence, so the earlier candidate survives ties. -/
def keepBetter (best cand : MatchResult) : MatchResult :=
  if best.confidence < cand.confidence then cand else best

/-- Modelled from the spec (TemplateMatchingFinder is not under src/): select
the single candidate with the strictly highest confidence, ties broken by
first-encountered order. -/
def selectBest : List MatchResult → Option MatchResult
  | [] => none
  | c :: cs => some (List.foldl keepBetter c cs)

/-- Reference selection following the spec's words directly: the first
encountered candidate whose confidence no later candidate strictly exceeds. -/
def firstBest : List MatchResult → Option MatchResult
  | [] => none
  | c :: cs =>
    match firstBest cs with
    | none => some c
    | some b => some (if c.confidence < b.confidence then b else c)

/-- A matching engine takes a needle and a haystack image and returns
candidate matches. External collaborator per the spec. -/
abbrev MatchingEngine := Image → Image → List MatchResult

/-- Threshold policy from the spec: the chosen candidate's confidence must be
at least the minimum confidence, else the call fails with NoMatchFound; an
empty candidate list also fails with NoMatchFound. -/
def thresholdBest (candidates : List MatchResult) (minConfidence : Rat) :
    Except FindError MatchResult :=
  match selectBest candidates with
  | none => Except.error FindError.noMatchFound
  | some best =>
    if minConfidence ≤ best.confidence then Except.ok best
    else Except.error FindError.noMatchFound

/-- Modelled from the spec: the Finder (TemplateMatchingFinder, not under
src/) applies the colour-space policy to needle and haystack, invokes the
Matching Engine on the prepared images, then selects and thresholds. -/
def TemplateMatchingFinder.findMatch (engine : MatchingEngine)
    (req : ImageMatchRequest) : Except FindError MatchResult :=
  let mode := colourMode req.confidence
  thresholdBest
    (engine (applyMode mode req.needle) (applyMode mode req.haystack))
    req.confidence

lemma firstBest_cons_cons (c x : MatchResult) (cs : List MatchResult) :
    firstBest (keepBetter c x :: cs) = firstBest (c :: x :: cs) := by
  cases h : firstBest cs with
  | none => simp [firstBest, h, keepBetter]
  | some b =>
    simp only [firstBest, h, keepBetter]
    split_ifs <;> simp_all <;> linarith

lemma foldl_keepBetter_eq_firstBest (cs : List MatchResult) :
    ∀ c, some (List.foldl keepBetter c cs) = firstBest (c :: cs) := by
  induction cs with
  | nil => intro c; simp [firstBest]
  | cons x xs ih =>
    intro c
    have h1 : List.foldl keepBetter c (x :: xs)
        = List.foldl keepBetter (keepBetter c x) xs := rfl
    rw [h1, ih (keepBetter c x), firstBest_cons_cons]

lemma selectBest_eq_firstBest (cs : List MatchResult) :
    selectBest cs = firstBest cs := by
  cases cs with
  | nil => rfl
  | cons c cs => exact foldl_keepBetter_eq_firstBest cs c

lemma firstBest_le (cs : List MatchResult) :
    ∀ b, firstBest cs = some b → ∀ x ∈ cs, x.confidence ≤ b.confidence := by
  induction cs with
  | nil => simp [firstBest]
  | cons c cs ih =>
    intro b hb x hx
    cases h : firstBest cs with
    | none =>
      have hcs : cs = [] := by
        cases cs with
        | nil => rfl
        | cons d ds =>
          exfalso
          cases hd : firstBest ds <;> simp [firstBest, hd] at h
      subst hcs
      simp [firstBest] at hb
      simp at hx
      simp [hx, hb]
    | some b' =>
      simp only [firstBest, h, Option.some.injEq] at hb
      rcases List.mem_cons.mp hx with rfl | hx2
      · by_cases hc : x.confidence < b'.confidence
        · rw [if_pos hc] at hb
          subst hb
          exact le_of_lt hc
        · rw [if_neg hc] at hb
          subst hb
          exact le_refl _
      · have hxb : x.confidence ≤ b'.confidence := ih b' h x hx2
        by_cases hc : c.confidence < b'.confidence
        · rw [if_pos hc] at hb
          subst hb
          exact hxb
        · rw [if_neg hc] at hb
          subst hb
          exact le_trans hxb (le_of_not_lt hc)

lemma firstBest_mem (cs : List MatchResult) :
    ∀ b, firstBest cs = some b → b ∈ cs := by
  induction cs with
  | nil => simp [firstBest]
  | cons c cs ih =>
    intro b hb
    cases h : firstBest cs with
    | none =>
      simp [firstBest, h] at hb
      simp [hb]
    | some b' =>
      simp only [firstBest, h, Option.some.injEq] at hb
      by_cases hc : c.confidence < b'.confidence
      · rw [if_pos hc] at hb
        subst hb
        exact List.mem_cons_of_mem _ (ih b' h)
      · rw [if_neg hc] at hb
        subst hb
        exact List.mem_cons_self _ _

lemma firstBest_first (cs : List MatchResult) :
    ∀ b, firstBest cs = some b →
      ∃ i, ∃ h : i < cs.length, cs.get ⟨i, h⟩ = b ∧
        ∀ x ∈ cs.take i, x.confidence < b.confidence := by
  induction cs with
  | nil => simp [firstBest]
  | cons c cs ih =>
    intro b hb
    cases h : firstBest cs with
    | none =>
      simp [firstBest, h] at hb
      exact ⟨0, by simp, by simp [hb], by simp⟩
    | some b' =>
      simp only [firstBest, h, Option.some.injEq] at hb
      by_cases hc : c.confidence < b'.confidence
      · rw [if_pos hc] at hb
        obtain ⟨i, hi, hget, hpre⟩ := ih b' h
        subst hb
        refine ⟨i + 1, by simpa using Nat.succ_lt_succ hi, by simpa using hget, ?_⟩
        intro x hx
        rw [List.take_succ_cons] at hx
        rcases List.mem_cons.mp hx with rfl | hx2
        · exact hc
        · exact hpre x hx2
      · rw [if_neg hc] at hb
        subst hb
        exact ⟨0, by simp, by simp, by simp⟩

lemma selectBest_mem (cs : List MatchResult) (b : MatchResult)
    (hb : selectBest cs = some b) : b ∈ cs :=
  firstBest_mem cs b (by rw [← selectBest_eq_firstBest]; exact hb)

lemma selectBest_le (cs : List MatchResult) (b : MatchResult)
    (hb : selectBest cs = some b) : ∀ x ∈ cs, x.confidence ≤ b.confidence :=
  firstBest_le cs b (by rw [← selectBest_eq_firstBest]; exact hb)

/-- OCR language tag. Modelled from the spec: the source's Language enum is
not under src/ (the name Language is taken in Mathlib, hence OcrLanguage);
the spec gives an enumerated tag (e.g. ENG) defaulting to English. A second
tag makes pass-through observable. -/
inductive OcrLanguage where
  | eng
  | deu
deriving Repr, DecidableEq

/-- OCR failure carrying the engine's message, from the spec's error
taxonomy. -/
structure OcrError where
  message : String
deriving Repr, DecidableEq

/-- Sink write failure carrying an I/O message, from the spec's error
taxonomy. -/
structure SinkError where
  message : String
deriving Repr, DecidableEq

/-- Word bounding box, from src/types/tesseract.js/index.d.ts (Bbox). -/
structure Bbox where
  x0 : Int
  y0 : Int
  x1 : Int
  y1 : Int
deriving Repr, DecidableEq

/-- Recognized word, the fields of tesseract's Word used by the reader:
text, confidence and bounding box (src/types/tesseract.js/index.d.ts). -/
structure TessWord where
  text : String
  confidence : Rat
  bbox : Bbox
deriving Repr, DecidableEq

/-- Recognized page: full text plus word-level structures in document order
(src/types/tesseract.js/index.d.ts, Page.text and Page.words). -/
structure TessPage where
  text : String
  words : List TessWord
deriving Repr, DecidableEq

/-- Terminal outcome of a tesseract job: the then-callback receives a Page,
the catch-callback an Error (src/types/tesseract.js/index.d.ts,
TesseractJob). Progress notifications are informational only and do not
appear in the terminal outcome. -/
inductive JobOutcome where
  | success (page : TessPage)
  | failure (message : String)
deriving Repr, DecidableEq

/-- An OCR engine submits an image and language and yields the job's terminal
outcome. External collaborator per the spec. -/
abbrev OcrEngine := Image → OcrLanguage → JobOutcome

/-- OCR result shape of the data model: word text, confidence, bounding box.
Modelled from the spec: the OCRResult interface is not under src/. -/
structure OCRResult where
  text : String
  confidence : Rat
  boundingBox : Region
deriving Repr, DecidableEq

/-- Bounding-box to Region conversion used when projecting words. -/
def Bbox.toRegion (b : Bbox) : Region :=
  ⟨b.x0, b.y0, b.x1 - b.x0, b.y1 - b.y0⟩

/-- Modelled from the spec: TesseractReader.readPage (not under src/)
submits a job and, on success, returns the page text; any engine-reported
error surfaces as an OcrFailure carrying the engine's message. -/
def TesseractReader.readPage (engine : OcrEngine) (image : Image)
    (language : OcrLanguage) : Except OcrError String :=
  match engine image language with
  | JobOutcome.success page => Except.ok page.text
  | JobOutcome.failure m => Except.error ⟨m⟩

/-- Modelled from the spec: TesseractReader.readWords (not under src/) walks
the word-level structures in document order and emits one OCR Result per
word with the word's own confidence and bounding box; failures surface as
OcrFailure. -/
def TesseractReader.readWords (engine : OcrEngine) (image : Image)
    (language : OcrLanguage) : Except OcrError (List OCRResult) :=
  match engine image language with
  | JobOutcome.success page =>
    Except.ok (page.words.map (fun w => ⟨w.text, w.confidence, w.bbox.toRegion⟩))
  | JobOutcome.failure m => Except.error ⟨m⟩

/-- TextReader capability (src/ imports text-reader.interface, not present):
readPage and readWords per the spec contract. -/
structure TextReader where
  readPage : Image → OcrLanguage → Except OcrError String
  readWords : Image → OcrLanguage → Except OcrError (List OCRResult)

/-- FinderInterface capability (src/ imports finder.interface, not present):
findMatch returning a deferred MatchResult; the call may also throw
synchronously, hence AsyncOutcome. -/
structure FinderInterface where
  findMatch : ImageMatchRequest → AsyncOutcome FindError MatchResult

/-- ScreenActionProvider capability (src/ imports
screen-action-provider.interface, not present): the five screen operations,
all returning deferred results. -/
structure ScreenActionProvider where
  grabScreen : Except String Image
  grabScreenRegion : Region → Except String Image
  screenWidth : Except String Nat
  screenHeight : Except String Nat
  screenSize : Except String Region

/-- DataSink capability. Modelled from the spec: the data-sink.interface is
not under src/; the spec gives `store(Image, path) → deferred completion`,
failing with SinkWriteFailure on I/O error. -/
structure DataSink where
  store : Image → String → Except SinkError Unit

/-- Lift a settled Except outcome into an async call outcome (a collaborator
that returns a promise which fulfills or rejects, never throwing
synchronously). -/
def AsyncOutcome.ofExcept : Except FindError MatchResult → AsyncOutcome FindError MatchResult
  | Except.ok r => AsyncOutcome.fulfilled r
  | Except.error e => AsyncOutcome.rejected e

/-- Modelled from the spec: the production Matching Engine (OpenCV template
matching) is an external collaborator with no source under src/; its
behaviour is irrelevant to the claims, which quantify over engines. -/
def openCvEngine : MatchingEngine := fun _ _ => []

/-- Modelled from the spec: the production OCR engine (tesseract worker) is
an external collaborator with no source under src/. -/
def tesseractEngine : OcrEngine := fun _ _ => JobOutcome.success ⟨"", []⟩

/-- Default production finder: new TemplateMatchingFinder() in the
constructor (class not under src/, modelled from the spec). -/
def TemplateMatchingFinder.default : FinderInterface :=
  ⟨fun req => AsyncOutcome.ofExcept (TemplateMatchingFinder.findMatch openCvEngine req)⟩

/-- Default production screen provider: new ScreenAction() in the
constructor. Modelled from the spec: robotjs-backed, external OS calls. -/
def ScreenAction.default : ScreenActionProvider :=
  ⟨Except.error "os", fun _ => Except.error "os", Except.error "os",
   Except.error "os", Except.error "os"⟩

/-- Default production text reader: new TesseractReader() in the
constructor (class not under src/, modelled from the spec). -/
def TesseractReader.default : TextReader :=
  ⟨TesseractReader.readPage tesseractEngine, TesseractReader.readWords tesseractEngine⟩

/-- Default production sink: new ImageWriter() in the constructor (class not
under src/, modelled from the spec as a store capability). -/
def ImageWriter.default : DataSink :=
  ⟨fun _ _ => Except.ok ()⟩

/-- VisionAdapterConfig, from src/lib/adapter/vision.adapter.class.ts: four
optional collaborator fields. -/
structure VisionAdapterConfig where
  finder : Option FinderInterface
  screen : Option ScreenActionProvider
  screenReader : Option TextReader
  dataSink : Option DataSink

/-- VisionAdapter state, from src/lib/adapter/vision.adapter.class.ts: the
four private collaborator fields. -/
structure VisionAdapter where
  dataSink : DataSink
  finder : FinderInterface
  screen : ScreenActionProvider
  screenReader : TextReader

/-- VisionAdapter constructor, from src/lib/adapter/vision.adapter.class.ts:
each field is (config && config.field) || new Default(); the config argument
itself is optional. -/
def VisionAdapter.construct (config : Option VisionAdapterConfig) : VisionAdapter :=
  ⟨match config with
   | some c => match c.dataSink with
     | some d => d
     | none => ImageWriter.default
   | none => ImageWriter.default,
   match config with
   | some c => match c.finder with
     | some f => f
     | none => TemplateMatchingFinder.default
   | none => TemplateMatchingFinder.default,
   match config with
   | some c => match c.screen with
     | some s => s
     | none => ScreenAction.default
   | none => ScreenAction.default,
   match config with
   | some c => match c.screenReader with
     | some r => r
     | none => TesseractReader.default
   | none => TesseractReader.default⟩

/-- grabScreen, from src/: return this.screen.grabScreen(). -/
def VisionAdapter.grabScreen (a : VisionAdapter) : Except String Image :=
  a.screen.grabScreen

/-- grabScreenRegion, from src/: return this.screen.grabScreenRegion(region). -/
def VisionAdapter.grabScreenRegion (a : VisionAdapter) (region : Region) :
    Except String Image :=
  a.screen.grabScreenRegion region

/-- findOnScreenRegion, from src/: new Promise(async (resolve, reject) =>
try { resolve(await this.finder.findMatch(matchRequest)) } catch (e) {
reject(e) }). A synchronous throw and an asynchronous rejection both land in
the catch and reject the returned promise; a fulfilled value resolves it. -/
def VisionAdapter.findOnScreenRegion (a : VisionAdapter)
    (matchRequest : ImageMatchRequest) : Except FindError MatchResult :=
  match a.finder.findMatch matchRequest with
  | AsyncOutcome.thrown e => Except.error e
  | AsyncOutcome.fulfilled r => Except.ok r
  | AsyncOutcome.rejected e => Except.error e

/-- screenWidth, from src/: return this.screen.screenWidth(). -/
def VisionAdapter.screenWidth (a : VisionAdapter) : Except String Nat :=
  a.screen.screenWidth

/-- screenHeight, from src/: return this.screen.screenHeight(). -/
def VisionAdapter.screenHeight (a : VisionAdapter) : Except String Nat :=
  a.screen.screenHeight

/-- screenSize, from src/: return this.screen.screenSize(). -/
def VisionAdapter.screenSize (a : VisionAdapter) : Except String Region :=
  a.screen.screenSize

/-- saveImage, from src/: return (this.dataSink as ImageWriter).store(image,
path). The cast is a type-level assertion only; at run time the store method
of whatever sink is configured is invoked. -/
def VisionAdapter.saveImage (a : VisionAdapter) (image : Image)
    (path : String) : Except SinkError Unit :=
  a.dataSink.store image path

/-- Default parameter language = OcrLanguage.ENG, from src/: an omitted
language argument becomes English. -/
def orEnglish : Option OcrLanguage → OcrLanguage
  | some l => l
  | none => OcrLanguage.eng

/-- readText, from src/: return this.screenReader.readPage(image, language)
with language defaulting to OcrLanguage.ENG. -/
def VisionAdapter.readText (a : VisionAdapter) (image : Image)
    (language : Option OcrLanguage) : Except OcrError String :=
  a.screenReader.readPage image (orEnglish language)

/-- readWords, from src/: return this.screenReader.readWords(image,
language) with language defaulting to OcrLanguage.ENG. -/
def VisionAdapter.readWords (a : VisionAdapter) (image : Image)
    (language : Option OcrLanguage) : Except OcrError (List OCRResult) :=
  a.screenReader.readWords image (orEnglish language)

/-- Point value. Modelled from the spec sources: the Point class is not under
src/; a cursor position in screen coordinates. -/
structure Point where
  x : Int
  y : Int
deriving Repr, DecidableEq

/-- Mouse button tag. Modelled from the spec sources: the Button enum is not
under src/. -/
inductive Button where
  | left
  | middle
  | right
deriving Repr, DecidableEq

/-- Keyboard key tag, opaque. Modelled from the spec sources: the Key enum is
not under src/. -/
structure Key where
  code : Nat
deriving Repr, DecidableEq

/-- ClipboardActionProvider capability (src/ imports
clipboard-action-provider.interface, not present): copy and paste. -/
structure ClipboardActionProvider where
  copy : String → Except String Unit
  paste : Except String String

/-- KeyboardActionProvider capability (src/ imports
keyboard-action-provider.interface, not present). setKeyboardDelay returns
void synchronously in the source; the promise-returning operations return
deferred results. -/
structure KeyboardActionProvider where
  setKeyboardDelay : Nat → Unit
  type : String → Except String Unit
  click : List Key → Except String Unit
  pressKey : List Key → Except String Unit
  releaseKey : List Key → Except String Unit

/-- MouseActionProvider capability (src/ imports
mouse-action-provider.interface, not present). setMouseDelay returns void
synchronously in the source. -/
structure MouseActionProvider where
  setMouseDelay : Nat → Unit
  setMousePosition : Point → Except String Unit
  currentMousePosition : Except String Point
  leftClick : Except String Unit
  rightClick : Except String Unit
  middleClick : Except String Unit
  pressButton : Button → Except String Unit
  releaseButton : Button → Except String Unit
  scrollUp : Nat → Except String Unit
  scrollDown : Nat → Except String Unit
  scrollLeft : Nat → Except String Unit
  scrollRight : Nat → Except String Unit

/-- Default production clipboard: new ClipboardAction() in the constructor.
Modelled from the spec: clipboardy-backed, external OS calls. -/
def ClipboardAction.default : ClipboardActionProvider :=
  ⟨fun _ => Except.error "os", Except.error "os"⟩

/-- Default production keyboard: new KeyboardAction() in the constructor.
Modelled from the spec: robotjs-backed, external OS calls. -/
def KeyboardAction.default : KeyboardActionProvider :=
  ⟨fun _ => (), fun _ => Except.error "os", fun _ => Except.error "os",
   fun _ => Except.error "os", fun _ => Except.error "os"⟩

/-- Default production mouse: new MouseAction() in the constructor.
Modelled from the spec: robotjs-backed, external OS calls. -/
def MouseAction.default : MouseActionProvider :=
  ⟨fun _ => (), fun _ => Except.error "os", Except.error "os",
   Except.error "os", Except.error "os", Except.error "os",
   fun _ => Except.error "os", fun _ => Except.error "os",
   fun _ => Except.error "os", fun _ => Except.error "os",
   fun _ => Except.error "os", fun _ => Except.error "os"⟩

/-- NativeAdapterConfig, from src/lib/adapter/native.adapter.class.ts: three
optional collaborator fields. -/
structure NativeAdapterConfig where
  clipboard : Option ClipboardActionProvider
  keyboard : Option KeyboardActionProvider
  mouse : Option MouseActionProvider

/-- NativeAdapter state, from src/lib/adapter/native.adapter.class.ts: the
three private collaborator fields. -/
structure NativeAdapter where
  clipboard : ClipboardActionProvider
  keyboard : KeyboardActionProvider
  mouse : MouseActionProvider

/-- NativeAdapter constructor, from src/lib/adapter/native.adapter.class.ts:
each field is (config && config.field) || new Default(); the config argument
itself is optional. -/
def NativeAdapter.construct (config : Option NativeAdapterConfig) : NativeAdapter :=
  ⟨match config with
   | some c => match c.clipboard with
     | some p => p
     | none => ClipboardAction.default
   | none => ClipboardAction.default,
   match config with
   | some c => match c.keyboard with
     | some p => p
     | none => KeyboardAction.default
   | none => KeyboardAction.default,
   match config with
   | some c => match c.mouse with
     | some p => p
     | none => MouseAction.default
   | none => MouseAction.default⟩

/-- setMouseDelay, from src/: this.mouse.setMouseDelay(delay). -/
def NativeAdapter.setMouseDelay (a : NativeAdapter) (delay : Nat) : Unit :=
  a.mouse.setMouseDelay delay

/-- setKeyboardDelay, from src/: this.keyboard.setKeyboardDelay(delay). -/
def NativeAdapter.setKeyboardDelay (a : NativeAdapter) (delay : Nat) : Unit :=
  a.keyboard.setKeyboardDelay delay

/-- setMousePosition, from src/: return this.mouse.setMousePosition(p). -/
def NativeAdapter.setMousePosition (a : NativeAdapter) (p : Point) :
    Except String Unit :=
  a.mouse.setMousePosition p

/-- currentMousePosition, from src/: return this.mouse.currentMousePosition(). -/
def NativeAdapter.currentMousePosition (a : NativeAdapter) :
    Except String Point :=
  a.mouse.currentMousePosition

/-- leftClick, from src/: return this.mouse.leftClick(). -/
def NativeAdapter.leftClick (a : NativeAdapter) : Except String Unit :=
  a.mouse.leftClick

/-- rightClick, from src/: return this.mouse.rightClick(). -/
def NativeAdapter.rightClick (a : NativeAdapter) : Except String Unit :=
  a.mouse.rightClick

/-- middleClick, from src/: return this.mouse.middleClick(). -/
def NativeAdapter.middleClick (a : NativeAdapter) : Except String Unit :=
  a.mouse.middleClick

/-- pressButton, from src/: return this.mouse.pressButton(btn). -/
def NativeAdapter.pressButton (a : NativeAdapter) (btn : Button) :
    Except String Unit :=
  a.mouse.pressButton btn

/-- releaseButton, from src/: return this.mouse.releaseButton(btn). -/
def NativeAdapter.releaseButton (a : NativeAdapter) (btn : Button) :
    Except String Unit :=
  a.mouse.releaseButton btn

/-- type, from src/: return this.keyboard.type(input). -/
def NativeAdapter.typeText (a : NativeAdapter) (input : String) :
    Except String Unit :=
  a.keyboard.type input

/-- click, from src/: return this.keyboard.click(...keys). -/
def NativeAdapter.click (a : NativeAdapter) (keys : List Key) :
    Except String Unit :=
  a.keyboard.click keys

/-- pressKey, from src/: return this.keyboard.pressKey(...keys). -/
def NativeAdapter.pressKey (a : NativeAdapter) (keys : List Key) :
    Except String Unit :=
  a.keyboard.pressKey keys

/-- releaseKey, from src/: return this.keyboard.releaseKey(...keys). -/
def NativeAdapter.releaseKey (a : NativeAdapter) (keys : List Key) :
    Except String Unit :=
  a.keyboard.releaseKey keys

/-- scrollUp, from src/: return this.mouse.scrollUp(amount). -/
def NativeAdapter.scrollUp (a : NativeAdapter) (amount : Nat) :
    Except String Unit :=
  a.mouse.scrollUp amount

/-- scrollDown, from src/: return this.mouse.scrollDown(amount). -/
def NativeAdapter.scrollDown (a : NativeAdapter) (amount : Nat) :
    Except String Unit :=
  a.mouse.scrollDown amount

/-- scrollLeft, from src/: return this.mouse.scrollLeft(amount). -/
def NativeAdapter.scrollLeft (a : NativeAdapter) (amount : Nat) :
    Except String Unit :=
  a.mouse.scrollLeft amount

/-- scrollRight, from src/: return this.mouse.scrollRight(amount). -/
def NativeAdapter.scrollRight (a : NativeAdapter) (amount : Nat) :
    Except String Unit :=
  a.mouse.scrollRight amount

/-- copy, from src/: return this.clipboard.copy(text). -/
def NativeAdapter.copy (a : NativeAdapter) (text : String) :
    Except String Unit :=
  a.clipboard.copy text

/-- paste, from src/: return this.clipboard.paste(). -/
def NativeAdapter.paste (a : NativeAdapter) : Except String String :=
  a.clipboard.paste

/-- One public VisionAdapter method invocation with its arguments. -/
inductive VisionCall where
  | grabScreen
  | grabScreenRegion (region : Region)
  | findOnScreenRegion (matchRequest : ImageMatchRequest)
  | screenWidth
  | screenHeight
  | screenSize
  | saveImage (image : Image) (path : String)
  | readText (image : Image) (language : Option OcrLanguage)
  | readWords (image : Image) (language : Option OcrLanguage)

/-- Result of one VisionAdapter method invocation. -/
inductive VisionOutput where
  | imageResult (r : Except String Image)
  | matchOutcome (r : Except FindError MatchResult)
  | natResult (r : Except String Nat)
  | regionResult (r : Except String Region)
  | sinkResult (r : Except SinkError Unit)
  | textResult (r : Except OcrError String)
  | wordsResult (r : Except OcrError (List OCRResult))

/-- State-passing form of the VisionAdapter methods, straight from the method
bodies in src/lib/adapter/vision.adapter.class.ts: no body contains an
assignment to this.dataSink, this.finder, this.screen or this.screenReader,
so each branch carries the receiver through unchanged. -/
def VisionAdapter.step (a : VisionAdapter) : VisionCall → VisionAdapter × VisionOutput
  | VisionCall.grabScreen => (a, VisionOutput.imageResult a.grabScreen)
  | VisionCall.grabScreenRegion r => (a, VisionOutput.imageResult (a.grabScreenRegion r))
  | VisionCall.findOnScreenRegion req => (a, VisionOutput.matchOutcome (a.findOnScreenRegion req))
  | VisionCall.screenWidth => (a, VisionOutput.natResult a.screenWidth)
  | VisionCall.screenHeight => (a, VisionOutput.natResult a.screenHeight)
  | VisionCall.screenSize => (a, VisionOutput.regionResult a.screenSize)
  | VisionCall.saveImage img path => (a, VisionOutput.sinkResult (a.saveImage img path))
  | VisionCall.readText img lang => (a, VisionOutput.textResult (a.readText img lang))
  | VisionCall.readWords img lang => (a, VisionOutput.wordsResult (a.readWords img lang))

/-- One public NativeAdapter method invocation with its arguments. -/
inductive NativeCall where
  | setMouseDelay (delay : Nat)
  | setKeyboardDelay (delay : Nat)
  | setMousePosition (p : Point)
  | currentMousePosition
  | leftClick
  | rightClick
  | middleClick
  | pressButton (btn : Button)
  | releaseButton (btn : Button)
  | typeText (input : String)
  | click (keys : List Key)
  | pressKey (keys : List Key)
  | releaseKey (keys : List Key)
  | scrollUp (amount : Nat)
  | scrollDown (amount : Nat)
  | scrollLeft (amount : Nat)
  | scrollRight (amount : Nat)
  | copy (text : String)
  | paste

/-- Result of one NativeAdapter method invocation. -/
inductive NativeOutput where
  | voidResult (r : Unit)
  | unitResult (r : Except String Unit)
  | pointResult (r : Except String Point)
  | stringResult (r : Except String String)

/-- State-passing form of the NativeAdapter methods, straight from the method
bodies in src/lib/adapter/native.adapter.class.ts: no body contains an
assignment to this.clipboard, this.keyboard or this.mouse, so each branch
carries the receiver through unchanged. -/
def NativeAdapter.step (a : NativeAdapter) : NativeCall → NativeAdapter × NativeOutput
  | NativeCall.setMouseDelay d => (a, NativeOutput.voidResult (a.setMouseDelay d))
  | NativeCall.setKeyboardDelay d => (a, NativeOutput.voidResult (a.setKeyboardDelay d))
  | NativeCall.setMousePosition p => (a, NativeOutput.unitResult (a.setMousePosition p))
  | NativeCall.currentMousePosition => (a, NativeOutput.pointResult a.currentMousePosition)
  | NativeCall.leftClick => (a, NativeOutput.unitResult a.leftClick)
  | NativeCall.rightClick => (a, NativeOutput.unitResult a.rightClick)
  | NativeCall.middleClick => (a, NativeOutput.unitResult a.middleClick)
  | NativeCall.pressButton b => (a, NativeOutput.unitResult (a.pressButton b))
  | NativeCall.releaseButton b => (a, NativeOutput.unitResult (a.releaseButton b))
  | NativeCall.typeText s => (a, NativeOutput.unitResult (a.typeText s))
  | NativeCall.click ks => (a, NativeOutput.unitResult (a.click ks))
  | NativeCall.pressKey ks => (a, NativeOutput.unitResult (a.pressKey ks))
  | NativeCall.releaseKey ks => (a, NativeOutput.unitResult (a.releaseKey ks))
  | NativeCall.scrollUp n => (a, NativeOutput.unitResult (a.scrollUp n))
  | NativeCall.scrollDown n => (a, NativeOutput.unitResult (a.scrollDown n))
  | NativeCall.scrollLeft n => (a, NativeOutput.unitResult (a.scrollLeft n))
  | NativeCall.scrollRight n => (a, NativeOutput.unitResult (a.scrollRight n))
  | NativeCall.copy s => (a, NativeOutput.unitResult (a.copy s))
  | NativeCall.paste => (a, NativeOutput.stringResult a.paste)

/-- Sample needle image used in concrete instances. -/
def sampleNeedle : Image := ⟨2, 2, 3, [1, 2, 3, 4]⟩

/-- Sample haystack image used in concrete instances. -/
def sampleHaystack : Image := ⟨4, 4, 3, [5, 6, 7, 8]⟩

/-- Sample search region used in concrete instances. -/
def sampleRegion : Region := ⟨0, 0, 4, 4⟩

/-- Location of the 0.72 candidate. -/
def regionA : Region := ⟨10, 10, 2, 2⟩

/-- Location of the 0.95 candidate. -/
def regionB : Region := ⟨20, 20, 2, 2⟩

/-- Location of the 0.81 candidate. -/
def regionC : Region := ⟨30, 30, 2, 2⟩

/-- Candidate with confidence 0.72. -/
def candidate72 : MatchResult := ⟨72 / 100, regionA⟩

/-- Candidate with confidence 0.95. -/
def candidate95 : MatchResult := ⟨95 / 100, regionB⟩

/-- Candidate with confidence 0.81. -/
def candidate81 : MatchResult := ⟨81 / 100, regionC⟩

/-- The spec's worked engine response: confidences 0.72, 0.95, 0.81 in
encounter order. -/
def sampleCandidates : List MatchResult := [candidate72, candidate95, candidate81]

/-- Engine returning the worked response for every pair of images. -/
def sampleEngine : MatchingEngine := fun _ _ => sampleCandidates

/-- Engine whose best candidate has confidence 0.5 for every pair of
images. -/
def lowEngine : MatchingEngine := fun _ _ => [⟨1 / 2, regionA⟩]

/-- Match request with minimum confidence 0.80. -/
def sampleRequest80 : ImageMatchRequest := ⟨sampleHaystack, sampleNeedle, sampleRegion, 80 / 100⟩

/-- Match request with minimum confidence exactly 0.99 (the boundary). -/
def sampleRequest99 : ImageMatchRequest := ⟨sampleHaystack, sampleNeedle, sampleRegion, 99 / 100⟩

/-- Finder collaborator built from the spec-modelled TemplateMatchingFinder
over a given engine; it returns a promise and never throws synchronously. -/
def templateFinder (engine : MatchingEngine) : FinderInterface :=
  ⟨fun req => AsyncOutcome.ofExcept (TemplateMatchingFinder.findMatch engine req)⟩

/-- Finder collaborator that always throws synchronously. -/
def throwingFinder : FinderInterface :=
  ⟨fun _ => AsyncOutcome.thrown (FindError.engineFailure "boom")⟩

/-- VisionAdapter constructed with only the finder substituted. -/
def visionWithFinder (f : FinderInterface) : VisionAdapter :=
  VisionAdapter.construct (some ⟨some f, none, none, none⟩)

/-- VisionAdapter constructed with only the text reader substituted. -/
def visionWithReader (r : TextReader) : VisionAdapter :=
  VisionAdapter.construct (some ⟨none, none, some r, none⟩)

/-- VisionAdapter constructed with only the sink substituted. -/
def visionWithSink (s : DataSink) : VisionAdapter :=
  VisionAdapter.construct (some ⟨none, none, none, some s⟩)

/-- TextReader built from the spec-modelled TesseractReader over a given OCR
engine. -/
def tesseractTextReader (engine : OcrEngine) : TextReader :=
  ⟨TesseractReader.readPage engine, TesseractReader.readWords engine⟩

lemma findOnScreenRegion_templateFinder (engine : MatchingEngine)
    (req : ImageMatchRequest) :
    (visionWithFinder (templateFinder engine)).findOnScreenRegion req
      = TemplateMatchingFinder.findMatch engine req := by
  cases hm : TemplateMatchingFinder.findMatch engine req with
  | ok r =>
    simp [VisionAdapter.findOnScreenRegion, visionWithFinder,
      VisionAdapter.construct, templateFinder, AsyncOutcome.ofExcept, hm]
  | error e =>
    simp [VisionAdapter.findOnScreenRegion, visionWithFinder,
      VisionAdapter.construct, templateFinder, AsyncOutcome.ofExcept, hm]

lemma thresholdBest_all_below (cands : List MatchResult) (minC : Rat)
    (h : ∀ x ∈ cands, x.confidence < minC) :
    thresholdBest cands minC = Except.error FindError.noMatchFound := by
  cases hs : selectBest cands with
  | none => simp [thresholdBest, hs]
  | some best =>
    have hlt : best.confidence < minC := h best (selectBest_mem cands best hs)
    simp [thresholdBest, hs, not_le.mpr hlt]

/-- C1: for every match request with minimum confidence at least 0.99, the
Finder invoked through findOnScreenRegion searches on the untouched
full-colour needle and haystack, and for minimum confidence below 0.99 it
searches on their grayscale conversions; the boundary is inclusive at
0.99. -/
theorem c1_colour_space_boundary (engine : MatchingEngine)
    (req : ImageMatchRequest) :
    (99 / 100 ≤ req.confidence →
      (visionWithFinder (templateFinder engine)).findOnScreenRegion req
        = thresholdBest (engine req.needle req.haystack) req.confidence)
    ∧ (req.confidence < 99 / 100 →
      (visionWithFinder (templateFinder engine)).findOnScreenRegion req
        = thresholdBest (engine req.needle.toGrayScale req.haystack.toGrayScale)
            req.confidence) := by
  constructor
  · intro h
    rw [findOnScreenRegion_templateFinder]
    simp only [TemplateMatchingFinder.findMatch, colourMode]
    rw [if_neg (not_lt.mpr h)]
    rfl
  · intro h
    rw [findOnScreenRegion_templateFinder]
    simp only [TemplateMatchingFinder.findMatch, colourMode]
    rw [if_pos h]
    rfl

/-- Witness for C1 at the inclusive boundary: a request with minimum
confidence exactly 0.99 is searched in full colour. -/
theorem c1_colour_space_boundary_witness :
    99 / 100 ≤ sampleRequest99.confidence ∧
    (visionWithFinder (templateFinder sampleEngine)).findOnScreenRegion sampleRequest99
      = thresholdBest (sampleEngine sampleRequest99.needle sampleRequest99.haystack)
          sampleRequest99.confidence :=
  ⟨by norm_num [sampleRequest99],
   (c1_colour_space_boundary sampleEngine sampleRequest99).1
     (by norm_num [sampleRequest99])⟩

lemma keepBetter_72_95 : keepBetter candidate72 candidate95 = candidate95 := by
  unfold keepBetter
  rw [if_pos]
  norm_num [candidate72, candidate95]

lemma keepBetter_95_81 : keepBetter candidate95 candidate81 = candidate95 := by
  unfold keepBetter
  rw [if_neg]
  norm_num [candidate95, candidate81]

lemma selectBest_sample : selectBest sampleCandidates = some candidate95 := by
  simp [selectBest, sampleCandidates, List.foldl, keepBetter_72_95, keepBetter_95_81]

lemma findOnScreen_sample :
    (visionWithFinder (templateFinder sampleEngine)).findOnScreenRegion sampleRequest80
      = Except.ok candidate95 := by
  rw [findOnScreenRegion_templateFinder]
  simp only [TemplateMatchingFinder.findMatch]
  simp only [sampleEngine]
  rw [thresholdBest, selectBest_sample]
  simp only []
  rw [if_pos]
  norm_num [sampleRequest80, candidate95]

/-- Property that b sits at an index of cs strictly before which every
candidate has strictly lower confidence: first-encountered tie-break. -/
def FirstAttains (cs : List MatchResult) (b : MatchResult) : Prop :=
  ∃ i, ∃ h : i < cs.length, cs.get ⟨i, h⟩ = b ∧
    ∀ x ∈ cs.take i, x.confidence < b.confidence

/-- C2: the Finder reached via findOnScreenRegion returns exactly the single
candidate with the strictly highest confidence, ties broken by
first-encountered order; selection agrees with the spec-worded firstBest,
the selected candidate is a maximal member preceded only by strictly lower
confidences, any above-threshold selected candidate is returned, and on the
worked response 0.72, 0.95, 0.81 with minimum confidence 0.80 the 0.95
candidate is returned. -/
theorem c2_best_candidate_selection (cs : List MatchResult) (b : MatchResult) :
    (selectBest cs = firstBest cs)
    ∧ (selectBest cs = some b →
        b ∈ cs ∧ (∀ x ∈ cs, x.confidence ≤ b.confidence) ∧ FirstAttains cs b)
    ∧ (∀ engine : MatchingEngine, ∀ req : ImageMatchRequest, ∀ best : MatchResult,
        selectBest (engine (applyMode (colourMode req.confidence) req.needle)
            (applyMode (colourMode req.confidence) req.haystack)) = some best →
        req.confidence ≤ best.confidence →
        (visionWithFinder (templateFinder engine)).findOnScreenRegion req
          = Except.ok best)
    ∧ ((visionWithFinder (templateFinder sampleEngine)).findOnScreenRegion sampleRequest80
        = Except.ok candidate95) := by
  refine ⟨selectBest_eq_firstBest cs, ?_, ?_, ?_⟩
  · intro hb
    refine ⟨selectBest_mem cs b hb, selectBest_le cs b hb, ?_⟩
    exact firstBest_first cs b (by rw [← selectBest_eq_firstBest]; exact hb)
  · intro engine req best hs hc
    rw [findOnScreenRegion_templateFinder]
    simp only [TemplateMatchingFinder.findMatch]
    simp [thresholdBest, hs, hc]
  · exact findOnScreen_sample

/-- Witness for C2: on the worked candidate list the selected 0.95 candidate
is a member, maximal, and first to attain the maximum. -/
theorem c2_best_candidate_selection_witness :
    candidate95 ∈ sampleCandidates
    ∧ (∀ x ∈ sampleCandidates, x.confidence ≤ candidate95.confidence)
    ∧ FirstAttains sampleCandidates candidate95 :=
  (c2_best_candidate_selection sampleCandidates candidate95).2.1 selectBest_sample

/-- C3: if no candidate the engine can produce reaches the request's minimum
confidence (including an engine that produces no candidates), the find
operation reached via findOnScreenRegion fails on the error channel with
NoMatchFound, never with an empty or null success. -/
theorem c3_no_match_found (engine : MatchingEngine) (req : ImageMatchRequest)
    (h : ∀ n hay : Image, ∀ x ∈ engine n hay, x.confidence < req.confidence) :
    (visionWithFinder (templateFinder engine)).findOnScreenRegion req
      = Except.error FindError.noMatchFound := by
  rw [findOnScreenRegion_templateFinder]
  simp only [TemplateMatchingFinder.findMatch]
  exact thresholdBest_all_below _ _ (fun x hx => h _ _ x hx)

/-- Witness for C3: maximum candidate confidence 0.5 against minimum
confidence 0.8 fails with NoMatchFound. -/
theorem c3_no_match_found_witness :
    (∀ n hay : Image, ∀ x ∈ lowEngine n hay, x.confidence < sampleRequest80.confidence)
    ∧ (visionWithFinder (templateFinder lowEngine)).findOnScreenRegion sampleRequest80
        = Except.error FindError.noMatchFound := by
  have h : ∀ n hay : Image, ∀ x ∈ lowEngine n hay,
      x.confidence < sampleRequest80.confidence := by
    intro n hay x hx
    simp [lowEngine] at hx
    rw [hx]
    norm_num [sampleRequest80]
  exact ⟨h, c3_no_match_found lowEngine sampleRequest80 h⟩

/-- C4: findOnScreenRegion delegates to the configured finder and gives the
caller one uniform asynchronous failure channel: a synchronous throw and an
asynchronous rejection both surface as a rejection carrying the same error,
and a fulfilled match is resolved unchanged; nothing is swallowed or
substituted. -/
theorem c4_uniform_error_channel (a : VisionAdapter) (req : ImageMatchRequest) :
    (∀ e, a.finder.findMatch req = AsyncOutcome.thrown e →
      a.findOnScreenRegion req = Except.error e)
    ∧ (∀ e, a.finder.findMatch req = AsyncOutcome.rejected e →
      a.findOnScreenRegion req = Except.error e)
    ∧ (∀ r, a.finder.findMatch req = AsyncOutcome.fulfilled r →
      a.findOnScreenRegion req = Except.ok r) := by
  refine ⟨?_, ?_, ?_⟩ <;> intro v hv <;>
    simp [VisionAdapter.findOnScreenRegion, hv]

/-- Witness for C4: a finder that throws synchronously surfaces as a
rejection carrying the thrown error. -/
theorem c4_uniform_error_channel_witness :
    (visionWithFinder throwingFinder).findOnScreenRegion sampleRequest80
      = Except.error (FindError.engineFailure "boom") :=
  (c4_uniform_error_channel (visionWithFinder throwingFinder) sampleRequest80).1
    (FindError.engineFailure "boom") rfl

/-- OCR engine whose job always reaches the failed terminal state. -/
def failingOcrEngine : OcrEngine := fun _ _ => JobOutcome.failure "ocr down"

/-- C5: for every image on which the OCR engine reports an error, readText
and readWords reached through the adapter resolve to an OcrFailure carrying
the engine's message, never to an empty string, an empty sequence, or any
success at all, so an OCR failure is distinguishable from a page with no
text. -/
theorem c5_ocr_failure_surfaces (engine : OcrEngine) (image : Image)
    (language : Option OcrLanguage) (m : String)
    (h : engine image (orEnglish language) = JobOutcome.failure m) :
    ((visionWithReader (tesseractTextReader engine)).readText image language
      = Except.error ⟨m⟩)
    ∧ ((visionWithReader (tesseractTextReader engine)).readWords image language
      = Except.error ⟨m⟩)
    ∧ (∀ s, (visionWithReader (tesseractTextReader engine)).readText image language
      ≠ Except.ok s)
    ∧ (∀ ws, (visionWithReader (tesseractTextReader engine)).readWords image language
      ≠ Except.ok ws) := by
  have h1 : (visionWithReader (tesseractTextReader engine)).readText image language
      = Except.error ⟨m⟩ := by
    simp [VisionAdapter.readText, visionWithReader, VisionAdapter.construct,
      tesseractTextReader, TesseractReader.readPage, h]
  have h2 : (visionWithReader (tesseractTextReader engine)).readWords image language
      = Except.error ⟨m⟩ := by
    simp [VisionAdapter.readWords, visionWithReader, VisionAdapter.construct,
      tesseractTextReader, TesseractReader.readWords, h]
  refine ⟨h1, h2, ?_, ?_⟩
  · intro s hs
    rw [h1] at hs
    exact Except.noConfusion hs
  · intro ws hws
    rw [h2] at hws
    exact Except.noConfusion hws

/-- Witness for C5: an engine error message reaches the caller unchanged for
both readText and readWords. -/
theorem c5_ocr_failure_surfaces_witness :
    ((visionWithReader (tesseractTextReader failingOcrEngine)).readText sampleHaystack none
      = Except.error ⟨"ocr down"⟩)
    ∧ ((visionWithReader (tesseractTextReader failingOcrEngine)).readWords sampleHaystack none
      = Except.error ⟨"ocr down"⟩) :=
  ⟨(c5_ocr_failure_surfaces failingOcrEngine sampleHaystack none "ocr down" rfl).1,
   (c5_ocr_failure_surfaces failingOcrEngine sampleHaystack none "ocr down" rfl).2.1⟩

/-- C6: calling readText or readWords without a language argument invokes the
configured text reader with the English tag; an explicitly supplied language
is passed through unchanged. -/
theorem c6_default_language (a : VisionAdapter) (image : Image) :
    (a.readText image none = a.screenReader.readPage image OcrLanguage.eng)
    ∧ (a.readWords image none = a.screenReader.readWords image OcrLanguage.eng)
    ∧ (∀ l, a.readText image (some l) = a.screenReader.readPage image l)
    ∧ (∀ l, a.readWords image (some l) = a.screenReader.readWords image l) :=
  ⟨rfl, rfl, fun _ => rfl, fun _ => rfl⟩

/-- C7: every collaborator field set in a configuration record becomes that
facade's collaborator, and every unset field (including when no record is
passed at all) falls back to the default production collaborator, across all
four vision collaborators and all three native collaborators. -/
theorem c7_config_injection_and_defaults (cfg : VisionAdapterConfig)
    (ncfg : NativeAdapterConfig) :
    ((VisionAdapter.construct (some cfg)).finder
      = cfg.finder.getD TemplateMatchingFinder.default)
    ∧ ((VisionAdapter.construct (some cfg)).screen
      = cfg.screen.getD ScreenAction.default)
    ∧ ((VisionAdapter.construct (some cfg)).screenReader
      = cfg.screenReader.getD TesseractReader.default)
    ∧ ((VisionAdapter.construct (some cfg)).dataSink
      = cfg.dataSink.getD ImageWriter.default)
    ∧ (VisionAdapter.construct none
      = ⟨ImageWriter.default, TemplateMatchingFinder.default,
         ScreenAction.default, TesseractReader.default⟩)
    ∧ ((NativeAdapter.construct (some ncfg)).clipboard
      = ncfg.clipboard.getD ClipboardAction.default)
    ∧ ((NativeAdapter.construct (some ncfg)).keyboard
      = ncfg.keyboard.getD KeyboardAction.default)
    ∧ ((NativeAdapter.construct (some ncfg)).mouse
      = ncfg.mouse.getD MouseAction.default)
    ∧ (NativeAdapter.construct none
      = ⟨ClipboardAction.default, KeyboardAction.default, MouseAction.default⟩) := by
  obtain ⟨f, s, r, d⟩ := cfg
  obtain ⟨cb, kb, ms⟩ := ncfg
  refine ⟨?_, ?_, ?_, ?_, rfl, ?_, ?_, ?_, rfl⟩
  · cases f <;> rfl
  · cases s <;> rfl
  · cases r <;> rfl
  · cases d <;> rfl
  · cases cb <;> rfl
  · cases kb <;> rfl
  · cases ms <;> rfl

/-- Sink that fails every store with an I/O error. -/
def failingSink : DataSink := ⟨fun _ _ => Except.error ⟨"disk full"⟩⟩

/-- C8: saveImage invokes the configured sink's store operation with exactly
the given image and path and returns its deferred completion; an I/O error
of the sink surfaces as the SinkWriteFailure carried on the error channel,
for any substituted sink and for the default one. -/
theorem c8_save_image_delegation (sink : DataSink) (image : Image)
    (path : String) :
    ((visionWithSink sink).saveImage image path = sink.store image path)
    ∧ (∀ e, sink.store image path = Except.error e →
        (visionWithSink sink).saveImage image path = Except.error e)
    ∧ ((VisionAdapter.construct none).saveImage image path
        = ImageWriter.default.store image path) := by
  refine ⟨rfl, ?_, rfl⟩
  intro e he
  exact he

/-- Witness for C8: a sink rejecting with an I/O error surfaces that exact
error through saveImage. -/
theorem c8_save_image_delegation_witness :
    (visionWithSink failingSink).saveImage sampleHaystack "shot.png"
      = Except.error ⟨"disk full"⟩ :=
  (c8_save_image_delegation failingSink sampleHaystack "shot.png").2.1
    ⟨"disk full"⟩ rfl

/-- C9: grabScreen, grabScreenRegion, screenWidth, screenHeight and
screenSize each return exactly the deferred result of the corresponding
screen-provider operation with the same arguments, with no transformation or
policy of their own. -/
theorem c9_screen_delegation (a : VisionAdapter) (region : Region) :
    (a.grabScreen = a.screen.grabScreen)
    ∧ (a.grabScreenRegion region = a.screen.grabScreenRegion region)
    ∧ (a.screenWidth = a.screen.screenWidth)
    ∧ (a.screenHeight = a.screen.screenHeight)
    ∧ (a.screenSize = a.screen.screenSize) :=
  ⟨rfl, rfl, rfl, rfl, rfl⟩

/-- C10: no public operation of either adapter changes which collaborators
the adapter is bound to: every method call carries the adapter state through
unchanged, so the adapters hold no per-call mutable state of their own. The
collaborator fields themselves are total in the embedding, mirroring their
unconditional assignment in the constructors. -/
theorem c10_adapters_hold_no_mutable_state (a : VisionAdapter)
    (n : NativeAdapter) (vc : VisionCall) (nc : NativeCall) :
    ((a.step vc).1 = a) ∧ ((n.step nc).1 = n) := by
  constructor
  · cases vc <;> rfl
  · cases nc <;> rfl
